import Mathlib

/-!
Verification of the config-to-payload mapping and plan-entitlement engine of
the music-studio backend (`app/models.py`, `app/mapping.py`,
`app/feature_flags.py`), as a shallow embedding in Lean 4.

Modelling conventions:
* Python `Optional[str]` becomes `Option String`; Python string enums become
  plain `String` fields (the pydantic validation layer is upstream of the
  functions verified here, and every theorem quantifies over the larger type,
  so the results cover all schema-valid configs).
* Python `int` becomes `Int`, Python `float` becomes `ℚ` (the plan limits and
  defaults 0.5, 0.75, 1.0, -14, 60 are all exactly representable, and the code
  only compares and copies these values, so rational arithmetic is faithful).
* The `HTTPException` raised by `validate_plan_limits` becomes an
  `Except PlanError Unit`; the `PlanError` constructors carry the data that the
  Python f-string messages interpolate (durations, stem lists, limits), so
  "the message enumerates X" is modelled as "the error value carries X".
* Python dict literals become association lists looked up with `List.lookup`;
  Python `sorted` on strings becomes a stable insertion sort by the
  code-point lexicographic order on `String`.
-/

/-- Model of `models.py` `LyricsConfig`. -/
structure LyricsConfig where
  style : String
  rhyme_scheme : String
  syllable_density : String
  keywords : List String
deriving DecidableEq

/-- Model of `models.py` `MusicConfig`. -/
structure MusicConfig where
  genre : String
  fusion : List String
  bpm : Int
  key : String
  scale : String
  time_signature : String
  tempo_curve : String
  chord_palette : String
deriving DecidableEq

/-- Model of `models.py` `InstrumentationConfig`. -/
structure InstrumentationConfig where
  lead_instrument : String
  support_instruments : List String
  percussion_style : String
  hooks : List String
deriving DecidableEq

/-- Model of `models.py` `VocalConfig` (the `language_split` dict as an assoc list). -/
structure VocalConfig where
  vocal_gender : String
  vocal_register : String
  multilayer : List String
  language_split : List (String × Int)
deriving DecidableEq

/-- Model of `models.py` `StructureConfig`. -/
structure StructureConfig where
  form : List String
  drop_type : Option String
  duration_sec : Int
  stems : List String
deriving DecidableEq

/-- Model of `models.py` `MixBusConfig`. -/
structure MixBusConfig where
  glue_comp : String
  tape_sat : Bool
deriving DecidableEq

/-- Model of `models.py` `MasteringConfig`. -/
structure MasteringConfig where
  target_lufs : Int
  stereo_width : Int
  limiter : String
deriving DecidableEq

/-- Model of `models.py` `ProductionConfig`. -/
structure ProductionConfig where
  mix_bus : MixBusConfig
  vocals_fx : List String
  mastering : MasteringConfig
  fx_sfx : List String
deriving DecidableEq

/-- Model of `models.py` `AIConfig`. -/
structure AIConfig where
  seed : Option Int
  creativity : ℚ
  guidance : ℚ
  repetition_penalty : ℚ
deriving DecidableEq

/-- Model of `models.py` `GenerateConfig`, the root config entity. -/
structure GenerateConfig where
  theme : String
  subtheme : Option String
  language : List String
  persona : Option String
  explicit_ok : Bool
  lyrics : LyricsConfig
  music : MusicConfig
  instrumentation : InstrumentationConfig
  vocal : VocalConfig
  structure_ : StructureConfig
  production : ProductionConfig
  ai : AIConfig
deriving DecidableEq

/-- The `mixing` dict of the payload (`map_to_music_api`). -/
structure MixingOut where
  tape_sat : Bool
  glue_comp : String
deriving DecidableEq

/-- The `mastering` dict of the payload (`map_to_music_api`). -/
structure MasteringOut where
  target_lufs : Int
  stereo_width : Int
  limiter : String
deriving DecidableEq

/-- The `safety` dict of the payload (`map_to_music_api`). -/
structure SafetyOut where
  explicit_ok : Bool
deriving DecidableEq

/-- Model of `models.py` `ElevenLabsPayload`. -/
structure ElevenLabsPayload where
  lyrics_prompt : String
  genre : String
  bpm : Int
  key_signature : String
  time_signature : String
  duration_seconds : Int
  voice : String
  instrument_preset : String
  hooks : List String
  mixing : MixingOut
  vocals_fx : List String
  mastering : MasteringOut
  stems : List String
  fx_sfx : List String
  seed : Option Int
  creativity : ℚ
  guidance : ℚ
  repetition_penalty : ℚ
  safety : SafetyOut
deriving DecidableEq

/-- Model of `feature_flags.py` `PlanType = Literal["free", "pro", "studio", "label"]`. -/
inductive Plan where
  | free
  | pro
  | studio
  | label
deriving DecidableEq

/-- The rational 1/2 (the float `0.5` of the source), given in lowest terms so
that the kernel can evaluate comparisons on it. -/
def ratHalf : ℚ := ⟨1, 2, by norm_num, by norm_num⟩

/-- The rational 3/4 (the float `0.75` of the source). -/
def ratThreeQuarters : ℚ := ⟨3, 4, by norm_num, by norm_num⟩

/-- The rational 15/2 (the float `7.5` of the source). -/
def ratFifteenHalves : ℚ := ⟨15, 2, by norm_num, by norm_num⟩

/-- The value type of the `PLAN_LIMITS` dict in `feature_flags.py`. -/
structure PlanLimits where
  max_duration : Int
  allowed_stems : List String
  mastering_controls : Bool
  max_creativity : ℚ
  batch_allowed : Bool
deriving DecidableEq

/-- Model of `feature_flags.py` `PLAN_LIMITS` (total on `Plan`, as the Python dict is
keyed by exactly the four `PlanType` literals). -/
def PLAN_LIMITS : Plan → PlanLimits
  | .free =>
    { max_duration := 90
      allowed_stems := ["master"]
      mastering_controls := false
      max_creativity := ratHalf
      batch_allowed := false }
  | .pro =>
    { max_duration := 150
      allowed_stems := ["master", "vocals", "instrumental"]
      mastering_controls := false
      max_creativity := ratThreeQuarters
      batch_allowed := false }
  | .studio =>
    { max_duration := 210
      allowed_stems := ["master", "vocals", "drums", "bass", "instruments", "fx"]
      mastering_controls := true
      max_creativity := 1
      batch_allowed := false }
  | .label =>
    { max_duration := 300
      allowed_stems := ["master", "vocals", "drums", "bass", "instruments", "fx", "midi"]
      mastering_controls := true
      max_creativity := 1
      batch_allowed := true }

/-- The error raised by `validate_plan_limits` (Python: `HTTPException(400, detail)`).
Each constructor carries the data interpolated into the corresponding Python
f-string `detail` message. -/
inductive PlanError where
  | durationExceeded (duration_sec max_duration : Int) (plan : Plan)
  | stemsNotAllowed (invalid_stems allowed_stems : List String) (plan : Plan)
  | masteringNotAvailable (plan : Plan)
  | creativityExceeded (creativity max_creativity : ℚ) (plan : Plan)
deriving DecidableEq

deriving instance DecidableEq for Except

/-- Python `set(cfg.structure_.stems) - set(limits["allowed_stems"])`: the
requested stems that are not allowed, without duplicates. -/
def invalidStems (stems allowed : List String) : List String :=
  (stems.filter (fun s => ¬ allowed.contains s)).dedup

/-- Model of `feature_flags.py` `validate_plan_limits`: checks duration, stems,
mastering defaults and creativity against the plan limits, in that order,
raising on the first violation. -/
def validate_plan_limits (cfg : GenerateConfig) (plan : Plan) : Except PlanError Unit :=
  let limits := PLAN_LIMITS plan
  if cfg.structure_.duration_sec > limits.max_duration then
    .error (.durationExceeded cfg.structure_.duration_sec limits.max_duration plan)
  else if invalidStems cfg.structure_.stems limits.allowed_stems ≠ [] then
    .error (.stemsNotAllowed (invalidStems cfg.structure_.stems limits.allowed_stems)
      limits.allowed_stems plan)
  else if limits.mastering_controls = false ∧
      (cfg.production.mastering.target_lufs ≠ -14 ∨
       cfg.production.mastering.stereo_width ≠ 60 ∨
       cfg.production.mastering.limiter ≠ "balanced") then
    .error (.masteringNotAvailable plan)
  else if cfg.ai.creativity > limits.max_creativity then
    .error (.creativityExceeded cfg.ai.creativity limits.max_creativity plan)
  else
    .ok ()

/-- Model of `mapping.py` `GENRE_MAP`. -/
def GENRE_MAP : List (String × String) :=
  [("pop", "pop"), ("rnb", "rnb"), ("trap", "trap"), ("edm", "edm"),
   ("indie", "indie"), ("lofi", "lofi"), ("synthwave", "synthwave"),
   ("cinematic", "cinematic"), ("world", "world"), ("reggaeton", "reggaeton"),
   ("rock", "rock"), ("folk", "folk"), ("jazz", "jazz"),
   ("classical", "classical"), ("hiphop", "hiphop"), ("blues", "blues"),
   ("country", "country"), ("metal", "metal")]

/-- Model of `mapping.py` `FUSION_TAGS`. -/
def FUSION_TAGS : List (String × String) :=
  [("turkish_makam", "anatolian_flavor"), ("synthwave", "synthwave"),
   ("afrobeat", "afrobeat"), ("latin", "latin_fusion"),
   ("oriental", "oriental_fusion")]

/-- Python `d.get(k, k)`: dict lookup with the key itself as default. -/
def lookupSelf (m : List (String × String)) (k : String) : String :=
  match m.lookup k with
  | some v => v
  | none => k

/-- Model of `mapping.py` `INSTRUMENT_PRESET_MAP` (tuple keys as lists). -/
def INSTRUMENT_PRESET_MAP : List (List String × String) :=
  [(["piano", "pad", "808"], "piano_pad_pop"),
   (["piano", "strings"], "piano_strings_cinematic"),
   (["guitar", "pad"], "guitar_ambient"),
   (["baglama"], "anatolian_pop"),
   (["baglama", "davul", "ney"], "turkish_traditional"),
   (["synth", "bass", "drums"], "synth_pop"),
   (["guitar", "bass", "drums"], "rock_standard"),
   (["piano", "violin"], "classical_duet"),
   (["808", "hi_hat", "clap"], "trap_minimal")]

/-- Model of `mapping.py` `VOICE_PRESET_MAP`. -/
def VOICE_PRESET_MAP : List ((String × String × Option String) × String) :=
  [(("female", "airy", some "duet"), "female_soft_airy_duet"),
   (("female", "airy", none), "female_soft_airy"),
   (("female", "chesty", none), "female_chest_pop"),
   (("female", "powerful", none), "female_powerful_belt"),
   (("female", "breathy", none), "female_breathy_intimate"),
   (("female", "soft", none), "female_soft_ballad"),
   (("male", "airy", none), "male_soft_airy"),
   (("male", "chesty", none), "male_chest_pop"),
   (("male", "powerful", none), "male_powerful_rock"),
   (("male", "breathy", none), "male_breathy_rnb"),
   (("male", "soft", none), "male_soft_folk"),
   (("duet", "airy", none), "duet_soft_airy"),
   (("duet", "chesty", none), "duet_balanced"),
   (("nonbinary", "airy", none), "androgynous_airy")]

/-- Code-point lexicographic `≤` on character lists, the order Python uses to
compare strings. -/
def charListLe : List Char → List Char → Bool
  | [], _ => true
  | _ :: _, [] => false
  | a :: as, b :: bs =>
    if a.toNat < b.toNat then true
    else if b.toNat < a.toNat then false
    else charListLe as bs

/-- Code-point lexicographic `≤` on strings (Python string comparison). -/
def strLe (s t : String) : Bool :=
  charListLe s.data t.data

/-- Stable insertion of a string into a list, by code-point order. -/
def insortStr (s : String) : List String → List String
  | [] => [s]
  | t :: ts => if strLe s t then s :: t :: ts else t :: insortStr s ts

/-- Python `sorted` on a list of strings: stable sort by code-point order. -/
def sortStrs (l : List String) : List String :=
  l.foldr insortStr []

/-- Model of `mapping.py` `to_key_signature`: `f"{key} {scale}"`. -/
def to_key_signature (key scale : String) : String :=
  key ++ " " ++ scale

/-- The `parts` list assembled by `mapping.py` `build_lyrics_prompt`. A
Python `if cfg.subtheme:` / `if cfg.persona:` guard is truthiness: it skips
both `None` and the empty string. -/
def lyricsParts (cfg : GenerateConfig) : List String :=
  ["Theme: " ++ cfg.theme]
  ++ (match cfg.subtheme with
      | some s => if s ≠ "" then ["Subtheme: " ++ s] else []
      | none => [])
  ++ (match cfg.persona with
      | some p => if p ≠ "" then ["Persona: " ++ p] else []
      | none => [])
  ++ (if cfg.lyrics.keywords ≠ [] then
        ["Keywords: " ++ String.intercalate ", " cfg.lyrics.keywords]
      else [])
  ++ ["Style: " ++ cfg.lyrics.style]
  ++ ["Rhyme: " ++ cfg.lyrics.rhyme_scheme]
  ++ ["Language: " ++ String.intercalate ", " cfg.language]

/-- Model of `mapping.py` `build_lyrics_prompt`: `" | ".join(parts)`. -/
def build_lyrics_prompt (cfg : GenerateConfig) : String :=
  String.intercalate " | " (lyricsParts cfg)

/-- Model of `mapping.py` `choose_instrument_preset`. -/
def choose_instrument_preset (cfg : GenerateConfig) : String :=
  let inst := cfg.instrumentation
  let key_tuple := inst.lead_instrument :: sortStrs inst.support_instruments
  match INSTRUMENT_PRESET_MAP.lookup key_tuple with
  | some p => p
  | none =>
    match INSTRUMENT_PRESET_MAP.lookup [inst.lead_instrument] with
    | some p => p
    | none =>
      let support_str :=
        if inst.support_instruments ≠ [] then
          String.intercalate "_" ((sortStrs inst.support_instruments).take 2)
        else "solo"
      inst.lead_instrument ++ "_" ++ support_str ++ "_" ++ cfg.music.genre

/-- Model of `mapping.py` `choose_voice_preset`. -/
def choose_voice_preset (cfg : GenerateConfig) : String :=
  let vocal := cfg.vocal
  let gender := if cfg.persona = some "duet" then "duet" else vocal.vocal_gender
  let register := vocal.vocal_register
  let persona := if cfg.persona = some "duet" then none else cfg.persona
  match VOICE_PRESET_MAP.lookup (gender, register, persona) with
  | some p => p
  | none =>
    match VOICE_PRESET_MAP.lookup (gender, register, (none : Option String)) with
    | some p => p
    | none => gender ++ "_" ++ register ++ "_" ++ cfg.music.genre

/-- Model of `mapping.py` `merge_genre_fusion`. -/
def merge_genre_fusion (genre : String) (fusion : List String) : String :=
  let base := lookupSelf GENRE_MAP genre
  if fusion = [] then base
  else
    let fusion_tags := fusion.map (fun f => lookupSelf FUSION_TAGS f)
    base ++ "_" ++ String.intercalate "_" (fusion_tags.take 2)

/-- Model of `mapping.py` `map_to_music_api`: the top-level payload assembler. -/
def map_to_music_api (cfg : GenerateConfig) : ElevenLabsPayload :=
  { lyrics_prompt := build_lyrics_prompt cfg
    genre := merge_genre_fusion cfg.music.genre cfg.music.fusion
    bpm := cfg.music.bpm
    key_signature := to_key_signature cfg.music.key cfg.music.scale
    time_signature := cfg.music.time_signature
    duration_seconds := cfg.structure_.duration_sec
    voice := choose_voice_preset cfg
    instrument_preset := choose_instrument_preset cfg
    hooks := cfg.instrumentation.hooks
    mixing :=
      { tape_sat := cfg.production.mix_bus.tape_sat
        glue_comp := cfg.production.mix_bus.glue_comp }
    vocals_fx := cfg.production.vocals_fx
    mastering :=
      { target_lufs := cfg.production.mastering.target_lufs
        stereo_width := cfg.production.mastering.stereo_width
        limiter := cfg.production.mastering.limiter }
    stems := cfg.structure_.stems
    fx_sfx := cfg.production.fx_sfx
    seed := cfg.ai.seed
    creativity := cfg.ai.creativity
    guidance := cfg.ai.guidance
    repetition_penalty := cfg.ai.repetition_penalty
    safety := { explicit_ok := cfg.explicit_ok } }

/-- A concrete schema-valid config: the pydantic defaults of `models.py`
with `theme = "love"` and the music block of the spec scenario
(`genre = "pop"`, `fusion = ["synthwave"]`, `bpm = 120`, `key = "C"`,
`scale = "major"`, `time_signature = "4/4"`, `duration_sec = 150`,
`stems = ["master"]`). -/
def baseCfg : GenerateConfig :=
  { theme := "love"
    subtheme := none
    language := ["tr"]
    persona := none
    explicit_ok := false
    lyrics :=
      { style := "poetic"
        rhyme_scheme := "ABAB"
        syllable_density := "med"
        keywords := [] }
    music :=
      { genre := "pop"
        fusion := ["synthwave"]
        bpm := 120
        key := "C"
        scale := "major"
        time_signature := "4/4"
        tempo_curve := "steady"
        chord_palette := "diatonic" }
    instrumentation :=
      { lead_instrument := "piano"
        support_instruments := []
        percussion_style := "acoustic"
        hooks := [] }
    vocal :=
      { vocal_gender := "female"
        vocal_register := "airy"
        multilayer := []
        language_split := [("tr", 100)] }
    structure_ :=
      { form := ["intro", "v1", "ch", "v2", "ch", "bridge", "ch", "outro"]
        drop_type := none
        duration_sec := 150
        stems := ["master"] }
    production :=
      { mix_bus := { glue_comp := "light", tape_sat := false }
        vocals_fx := []
        mastering := { target_lufs := -14, stereo_width := 60, limiter := "balanced" }
        fx_sfx := [] }
    ai :=
      { seed := none
        creativity := ratHalf
        guidance := ratFifteenHalves
        repetition_penalty := 1 } }

/-- Variant of `baseCfg` with `duration_sec = 91`. -/
def cfg91 : GenerateConfig :=
  { baseCfg with structure_ := { baseCfg.structure_ with duration_sec := 91 } }

/-- Variant of `baseCfg` with `duration_sec = 90`. -/
def cfg90 : GenerateConfig :=
  { baseCfg with structure_ := { baseCfg.structure_ with duration_sec := 90 } }

/-- Variant of `baseCfg` with `duration_sec = 90` and `stems = ["master", "vocals"]`. -/
def cfgStems90 : GenerateConfig :=
  { baseCfg with structure_ :=
      { baseCfg.structure_ with duration_sec := 90, stems := ["master", "vocals"] } }

/-- Variant of `baseCfg` with lead instrument `"baglama"` and no support instruments. -/
def cfgBaglama : GenerateConfig :=
  { baseCfg with instrumentation :=
      { baseCfg.instrumentation with lead_instrument := "baglama", support_instruments := [] } }

/-- Variant of `baseCfg` with `persona = "duet"`. -/
def cfgDuet : GenerateConfig :=
  { baseCfg with persona := some "duet" }

/-- Value `ratHalf` is the rational one half (the source's float `0.5`). -/
theorem ratHalf_eq : ratHalf = 1/2 := by
  rw [ratHalf, Rat.mk'_eq_divInt, Rat.divInt_eq_div]; norm_num

/-- Value `ratThreeQuarters` is the rational three quarters (the source's `0.75`). -/
theorem ratThreeQuarters_eq : ratThreeQuarters = 3/4 := by
  rw [ratThreeQuarters, Rat.mk'_eq_divInt, Rat.divInt_eq_div]; norm_num

/-- Value `ratFifteenHalves` is the rational fifteen halves (the source's `7.5`). -/
theorem ratFifteenHalves_eq : ratFifteenHalves = 15/2 := by
  rw [ratFifteenHalves, Rat.mk'_eq_divInt, Rat.divInt_eq_div]; norm_num

/-- A string with a non-empty left part is non-empty. -/
theorem append_ne_empty_left {l : String} (x : String) (hl : l.length ≠ 0) :
    l ++ x ≠ "" := by
  intro h
  have hlen := congrArg String.length h
  rw [String.length_append] at hlen
  have h0 : ("" : String).length = 0 := rfl
  rw [h0] at hlen
  omega

/-- A successful association-list lookup returns one of the stored values. -/
theorem lookup_mem_values {α β : Type} [BEq α] (k : α) (v : β) :
    ∀ m : List (α × β), List.lookup k m = some v → v ∈ m.map Prod.snd := by
  intro m h
  induction m with
  | nil => simp [List.lookup] at h
  | cons p t ih =>
    obtain ⟨a, b⟩ := p
    rw [List.lookup] at h
    cases hk : k == a with
    | true => rw [hk] at h; simp at h; simp [h]
    | false =>
      rw [hk] at h; simp at h
      rw [List.map_cons]
      exact List.mem_cons_of_mem _ (ih h)

/-- Every preset name stored in `INSTRUMENT_PRESET_MAP` is non-empty. -/
theorem instrument_values_ne_empty :
    ∀ v ∈ INSTRUMENT_PRESET_MAP.map Prod.snd, v ≠ "" := by decide

/-- Lemma: `invalidStems` is empty exactly when every requested stem is allowed. -/
theorem invalidStems_eq_nil_iff (stems allowed : List String) :
    invalidStems stems allowed = [] ↔ ∀ s ∈ stems, s ∈ allowed := by
  unfold invalidStems
  rw [List.dedup_eq_nil, List.filter_eq_nil_iff]
  simp

/-- Lemma: `validate_plan_limits` succeeds exactly when all four plan limits hold. -/
theorem validate_ok_iff (cfg : GenerateConfig) (plan : Plan) :
    validate_plan_limits cfg plan = .ok () ↔
      (cfg.structure_.duration_sec ≤ (PLAN_LIMITS plan).max_duration ∧
       invalidStems cfg.structure_.stems (PLAN_LIMITS plan).allowed_stems = [] ∧
       ¬((PLAN_LIMITS plan).mastering_controls = false ∧
         (cfg.production.mastering.target_lufs ≠ -14 ∨
          cfg.production.mastering.stereo_width ≠ 60 ∨
          cfg.production.mastering.limiter ≠ "balanced")) ∧
       cfg.ai.creativity ≤ (PLAN_LIMITS plan).max_creativity) := by
  simp only [validate_plan_limits]
  split_ifs with h1 h2 h3 h4
  · simp [not_le_of_gt h1]
  · simp [h2]
  · simp [h3]
  · simp [not_le_of_gt h4]
  · simp [not_lt.mp h1, not_not.mp h2, h3, not_lt.mp h4]

/-- The error of `validate_plan_limits` is that of the first violated check,
in the order duration, stems, mastering, creativity. -/
theorem validate_error_cases (cfg : GenerateConfig) (plan : Plan) :
    (cfg.structure_.duration_sec > (PLAN_LIMITS plan).max_duration →
      validate_plan_limits cfg plan =
        .error (.durationExceeded cfg.structure_.duration_sec
          (PLAN_LIMITS plan).max_duration plan))
    ∧ (¬ cfg.structure_.duration_sec > (PLAN_LIMITS plan).max_duration →
       invalidStems cfg.structure_.stems (PLAN_LIMITS plan).allowed_stems ≠ [] →
      validate_plan_limits cfg plan =
        .error (.stemsNotAllowed
          (invalidStems cfg.structure_.stems (PLAN_LIMITS plan).allowed_stems)
          (PLAN_LIMITS plan).allowed_stems plan))
    ∧ (¬ cfg.structure_.duration_sec > (PLAN_LIMITS plan).max_duration →
       invalidStems cfg.structure_.stems (PLAN_LIMITS plan).allowed_stems = [] →
       ((PLAN_LIMITS plan).mastering_controls = false ∧
         (cfg.production.mastering.target_lufs ≠ -14 ∨
          cfg.production.mastering.stereo_width ≠ 60 ∨
          cfg.production.mastering.limiter ≠ "balanced")) →
      validate_plan_limits cfg plan = .error (.masteringNotAvailable plan))
    ∧ (¬ cfg.structure_.duration_sec > (PLAN_LIMITS plan).max_duration →
       invalidStems cfg.structure_.stems (PLAN_LIMITS plan).allowed_stems = [] →
       ¬((PLAN_LIMITS plan).mastering_controls = false ∧
         (cfg.production.mastering.target_lufs ≠ -14 ∨
          cfg.production.mastering.stereo_width ≠ 60 ∨
          cfg.production.mastering.limiter ≠ "balanced")) →
       cfg.ai.creativity > (PLAN_LIMITS plan).max_creativity →
      validate_plan_limits cfg plan =
        .error (.creativityExceeded cfg.ai.creativity
          (PLAN_LIMITS plan).max_creativity plan))
    ∧ (¬ cfg.structure_.duration_sec > (PLAN_LIMITS plan).max_duration →
       invalidStems cfg.structure_.stems (PLAN_LIMITS plan).allowed_stems = [] →
       ¬((PLAN_LIMITS plan).mastering_controls = false ∧
         (cfg.production.mastering.target_lufs ≠ -14 ∨
          cfg.production.mastering.stereo_width ≠ 60 ∨
          cfg.production.mastering.limiter ≠ "balanced")) →
       ¬ cfg.ai.creativity > (PLAN_LIMITS plan).max_creativity →
      validate_plan_limits cfg plan = .ok ()) := by
  refine ⟨?_, ?_, ?_, ?_, ?_⟩
  · intro h1
    simp [validate_plan_limits, h1]
  · intro h1 h2
    simp [validate_plan_limits, h1, h2]
  · intro h1 h2 h3
    simp [validate_plan_limits, h1, h2, h3]
  · intro h1 h2 h3 h4
    simp [validate_plan_limits, h1, h2, h3, h4]
  · intro h1 h2 h3 h4
    simp [validate_plan_limits, h1, h2, h3, h4]

/-- Any string of the shape `a ++ "_" ++ s ++ "_" ++ g` is non-empty. -/
theorem composed_ne_empty (a s g : String) : a ++ "_" ++ s ++ "_" ++ g ≠ "" := by
  apply append_ne_empty_left
  rw [String.length_append, String.length_append, String.length_append]
  have h1 : ("_" : String).length = 1 := rfl
  simp only [h1]
  omega

/-- C1: `validate_plan_limits` fails exactly when the duration, stems,
mastering or creativity limit of the plan is violated, the reported error is
that of the first violated check in this fixed order, and when no check is
violated it returns without error. (The embedding is a pure function of the
config, so it can have no side effect on the config.) -/
theorem validate_plan_limits_contract (cfg : GenerateConfig) (plan : Plan) :
    ((∃ e, validate_plan_limits cfg plan = .error e) ↔
      (cfg.structure_.duration_sec > (PLAN_LIMITS plan).max_duration ∨
       invalidStems cfg.structure_.stems (PLAN_LIMITS plan).allowed_stems ≠ [] ∨
       ((PLAN_LIMITS plan).mastering_controls = false ∧
         (cfg.production.mastering.target_lufs ≠ -14 ∨
          cfg.production.mastering.stereo_width ≠ 60 ∨
          cfg.production.mastering.limiter ≠ "balanced")) ∨
       cfg.ai.creativity > (PLAN_LIMITS plan).max_creativity))
    ∧ (cfg.structure_.duration_sec > (PLAN_LIMITS plan).max_duration →
      validate_plan_limits cfg plan =
        .error (.durationExceeded cfg.structure_.duration_sec
          (PLAN_LIMITS plan).max_duration plan))
    ∧ (¬ cfg.structure_.duration_sec > (PLAN_LIMITS plan).max_duration →
       invalidStems cfg.structure_.stems (PLAN_LIMITS plan).allowed_stems ≠ [] →
      validate_plan_limits cfg plan =
        .error (.stemsNotAllowed
          (invalidStems cfg.structure_.stems (PLAN_LIMITS plan).allowed_stems)
          (PLAN_LIMITS plan).allowed_stems plan))
    ∧ (¬ cfg.structure_.duration_sec > (PLAN_LIMITS plan).max_duration →
       invalidStems cfg.structure_.stems (PLAN_LIMITS plan).allowed_stems = [] →
       ((PLAN_LIMITS plan).mastering_controls = false ∧
         (cfg.production.mastering.target_lufs ≠ -14 ∨
          cfg.production.mastering.stereo_width ≠ 60 ∨
          cfg.production.mastering.limiter ≠ "balanced")) →
      validate_plan_limits cfg plan = .error (.masteringNotAvailable plan))
    ∧ (¬ cfg.structure_.duration_sec > (PLAN_LIMITS plan).max_duration →
       invalidStems cfg.structure_.stems (PLAN_LIMITS plan).allowed_stems = [] →
       ¬((PLAN_LIMITS plan).mastering_controls = false ∧
         (cfg.production.mastering.target_lufs ≠ -14 ∨
          cfg.production.mastering.stereo_width ≠ 60 ∨
          cfg.production.mastering.limiter ≠ "balanced")) →
       cfg.ai.creativity > (PLAN_LIMITS plan).max_creativity →
      validate_plan_limits cfg plan =
        .error (.creativityExceeded cfg.ai.creativity
          (PLAN_LIMITS plan).max_creativity plan))
    ∧ (¬ cfg.structure_.duration_sec > (PLAN_LIMITS plan).max_duration →
       invalidStems cfg.structure_.stems (PLAN_LIMITS plan).allowed_stems = [] →
       ¬((PLAN_LIMITS plan).mastering_controls = false ∧
         (cfg.production.mastering.target_lufs ≠ -14 ∨
          cfg.production.mastering.stereo_width ≠ 60 ∨
          cfg.production.mastering.limiter ≠ "balanced")) →
       ¬ cfg.ai.creativity > (PLAN_LIMITS plan).max_creativity →
      validate_plan_limits cfg plan = .ok ()) := by
  obtain ⟨hc1, hc2, hc3, hc4, hc5⟩ := validate_error_cases cfg plan
  refine ⟨?_, hc1, hc2, hc3, hc4, hc5⟩
  constructor
  · rintro ⟨e, he⟩
    by_contra hno
    rw [not_or, not_or, not_or] at hno
    obtain ⟨n1, n2, n3, n4⟩ := hno
    rw [hc5 n1 (not_not.mp n2) n3 n4] at he
    simp at he
  · rintro (h | h | h | h)
    · exact ⟨_, hc1 h⟩
    · by_cases h1 : cfg.structure_.duration_sec > (PLAN_LIMITS plan).max_duration
      · exact ⟨_, hc1 h1⟩
      · exact ⟨_, hc2 h1 h⟩
    · by_cases h1 : cfg.structure_.duration_sec > (PLAN_LIMITS plan).max_duration
      · exact ⟨_, hc1 h1⟩
      · by_cases h2 : invalidStems cfg.structure_.stems (PLAN_LIMITS plan).allowed_stems = []
        · exact ⟨_, hc3 h1 h2 h⟩
        · exact ⟨_, hc2 h1 h2⟩
    · by_cases h1 : cfg.structure_.duration_sec > (PLAN_LIMITS plan).max_duration
      · exact ⟨_, hc1 h1⟩
      · by_cases h2 : invalidStems cfg.structure_.stems (PLAN_LIMITS plan).allowed_stems = []
        · by_cases h3 : (PLAN_LIMITS plan).mastering_controls = false ∧
            (cfg.production.mastering.target_lufs ≠ -14 ∨
             cfg.production.mastering.stereo_width ≠ 60 ∨
             cfg.production.mastering.limiter ≠ "balanced")
          · exact ⟨_, hc3 h1 h2 h3⟩
          · exact ⟨_, hc4 h1 h2 h3 h⟩
        · exact ⟨_, hc2 h1 h2⟩

/-- Witness for C1: the scenario config passes all four `pro` checks, so the
validator returns without error. -/
theorem validate_plan_limits_contract_witness :
    validate_plan_limits baseCfg .pro = .ok () :=
  (validate_plan_limits_contract baseCfg .pro).2.2.2.2.2
    (by decide) (by decide) (by decide) (by decide)

/-- C2: `merge_genre_fusion` returns the table-resolved base genre unchanged
when the fusion list is empty; otherwise it maps exactly the first two fusion
tags through `FUSION_TAGS` (an absent tag passes through unchanged), appends
them to the base genre joined by `_` in their original order, and silently
ignores every tag beyond the second; an unknown base genre passes through
unchanged and is never an error. -/
theorem merge_genre_fusion_spec (genre : String) (fusion : List String) :
    (fusion = [] → merge_genre_fusion genre fusion = lookupSelf GENRE_MAP genre)
    ∧ (fusion ≠ [] →
        merge_genre_fusion genre fusion =
          lookupSelf GENRE_MAP genre ++ "_" ++
            String.intercalate "_"
              ((fusion.take 2).map (fun f => lookupSelf FUSION_TAGS f)))
    ∧ merge_genre_fusion genre fusion = merge_genre_fusion genre (fusion.take 2)
    ∧ (GENRE_MAP.lookup genre = none → merge_genre_fusion genre [] = genre) := by
  refine ⟨?_, ?_, ?_, ?_⟩
  · intro h; simp [merge_genre_fusion, h]
  · intro h; simp [merge_genre_fusion, h, List.map_take]
  · by_cases h : fusion = []
    · simp [h]
    · have h2 : fusion.take 2 ≠ [] := by
        cases fusion with
        | nil => simp at h
        | cons a t => simp [List.take]
      simp [merge_genre_fusion, h, h2, List.map_take, List.take_take]
  · intro h; simp [merge_genre_fusion, lookupSelf, h]

/-- Witness for C2: the fusion list `["synthwave", "latin", "oriental"]` keeps
only its first two tags (mapped through the table), the empty fusion list
returns the base genre, and an unknown genre passes through unchanged. -/
theorem merge_genre_fusion_spec_witness :
    merge_genre_fusion "pop" ["synthwave", "latin", "oriental"] =
      "pop_synthwave_latin_fusion"
    ∧ merge_genre_fusion "pop" [] = "pop"
    ∧ merge_genre_fusion "zzz" [] = "zzz" := by
  refine ⟨?_, ?_, ?_⟩
  · rw [(merge_genre_fusion_spec "pop" ["synthwave", "latin", "oriental"]).2.1
      (by decide)]
    decide
  · rw [(merge_genre_fusion_spec "pop" []).1 rfl]; decide
  · exact (merge_genre_fusion_spec "zzz" []).2.2.2 (by decide)

/-- C3: `choose_instrument_preset` resolves an exact match of
`(lead_instrument, *sorted(support_instruments))` first, then an exact match
of the lead instrument alone, then composes the fallback
`"{lead}_{support_summary}_{genre}"` with `support_summary` the first two
sorted support instruments joined by `_`, or `"solo"` when there are none;
it is total and always returns a non-empty string. -/
theorem choose_instrument_preset_spec (cfg : GenerateConfig) :
    (∀ p, INSTRUMENT_PRESET_MAP.lookup
        (cfg.instrumentation.lead_instrument ::
          sortStrs cfg.instrumentation.support_instruments) = some p →
      choose_instrument_preset cfg = p)
    ∧ (∀ p, INSTRUMENT_PRESET_MAP.lookup
        (cfg.instrumentation.lead_instrument ::
          sortStrs cfg.instrumentation.support_instruments) = none →
        INSTRUMENT_PRESET_MAP.lookup [cfg.instrumentation.lead_instrument] = some p →
      choose_instrument_preset cfg = p)
    ∧ (INSTRUMENT_PRESET_MAP.lookup
        (cfg.instrumentation.lead_instrument ::
          sortStrs cfg.instrumentation.support_instruments) = none →
        INSTRUMENT_PRESET_MAP.lookup [cfg.instrumentation.lead_instrument] = none →
      choose_instrument_preset cfg =
        cfg.instrumentation.lead_instrument ++ "_" ++
          (if cfg.instrumentation.support_instruments = [] then "solo"
           else String.intercalate "_"
             ((sortStrs cfg.instrumentation.support_instruments).take 2)) ++
          "_" ++ cfg.music.genre)
    ∧ choose_instrument_preset cfg ≠ "" := by
  refine ⟨?_, ?_, ?_, ?_⟩
  · intro p hp; simp [choose_instrument_preset, hp]
  · intro p h1 h2; simp [choose_instrument_preset, h1, h2]
  · intro h1 h2
    simp only [choose_instrument_preset, h1, h2]
    by_cases hs : cfg.instrumentation.support_instruments = [] <;> simp [hs]
  · rcases h1 : INSTRUMENT_PRESET_MAP.lookup
        (cfg.instrumentation.lead_instrument ::
          sortStrs cfg.instrumentation.support_instruments) with _ | p
    · rcases h2 : INSTRUMENT_PRESET_MAP.lookup
          [cfg.instrumentation.lead_instrument] with _ | q
      · simp only [choose_instrument_preset, h1, h2]
        apply composed_ne_empty
      · simp only [choose_instrument_preset, h1, h2]
        exact instrument_values_ne_empty q (lookup_mem_values _ _ _ h2)
    · simp only [choose_instrument_preset, h1]
      exact instrument_values_ne_empty p (lookup_mem_values _ _ _ h1)

/-- Witness for C3: `"baglama"` with no support hits the lead-only preset
table entry, and `"piano"` with no support composes the fallback name. -/
theorem choose_instrument_preset_spec_witness :
    choose_instrument_preset cfgBaglama = "anatolian_pop"
    ∧ choose_instrument_preset baseCfg = "piano_solo_pop" := by
  constructor
  · exact (choose_instrument_preset_spec cfgBaglama).1 _ (by decide)
  · have h := (choose_instrument_preset_spec baseCfg).2.2.1 (by decide) (by decide)
    rw [h]; decide

/-- C4: `choose_voice_preset` computes the effective gender (the persona when
it equals `"duet"`, else the vocal gender), drops the persona from the key in
the duet case, and resolves by exact `(gender, register, persona)` match, then
`(gender, register, none)`, then the composed fallback
`"{gender}_{register}_{genre}"`; it is a total function. -/
theorem choose_voice_preset_spec (cfg : GenerateConfig) :
    (∀ p, VOICE_PRESET_MAP.lookup
        ((if cfg.persona = some "duet" then "duet" else cfg.vocal.vocal_gender),
         cfg.vocal.vocal_register,
         (if cfg.persona = some "duet" then none else cfg.persona)) = some p →
      choose_voice_preset cfg = p)
    ∧ (∀ p, VOICE_PRESET_MAP.lookup
        ((if cfg.persona = some "duet" then "duet" else cfg.vocal.vocal_gender),
         cfg.vocal.vocal_register,
         (if cfg.persona = some "duet" then none else cfg.persona)) = none →
        VOICE_PRESET_MAP.lookup
        ((if cfg.persona = some "duet" then "duet" else cfg.vocal.vocal_gender),
         cfg.vocal.vocal_register, (none : Option String)) = some p →
      choose_voice_preset cfg = p)
    ∧ (VOICE_PRESET_MAP.lookup
        ((if cfg.persona = some "duet" then "duet" else cfg.vocal.vocal_gender),
         cfg.vocal.vocal_register,
         (if cfg.persona = some "duet" then none else cfg.persona)) = none →
        VOICE_PRESET_MAP.lookup
        ((if cfg.persona = some "duet" then "duet" else cfg.vocal.vocal_gender),
         cfg.vocal.vocal_register, (none : Option String)) = none →
      choose_voice_preset cfg =
        (if cfg.persona = some "duet" then "duet" else cfg.vocal.vocal_gender) ++
          "_" ++ cfg.vocal.vocal_register ++ "_" ++ cfg.music.genre)
    ∧ (cfg.persona = some "duet" →
      choose_voice_preset cfg =
        (match VOICE_PRESET_MAP.lookup
            ("duet", cfg.vocal.vocal_register, (none : Option String)) with
         | some p => p
         | none => "duet" ++ "_" ++ cfg.vocal.vocal_register ++ "_" ++
             cfg.music.genre)) := by
  refine ⟨?_, ?_, ?_, ?_⟩
  · intro p hp; simp only [choose_voice_preset, hp]
  · intro p h1 h2; simp only [choose_voice_preset, h1, h2]
  · intro h1 h2; simp only [choose_voice_preset, h1, h2]
  · intro hp
    simp only [choose_voice_preset, hp, if_pos]
    rcases hl : List.lookup ("duet", cfg.vocal.vocal_register,
        (none : Option String)) VOICE_PRESET_MAP with _ | p <;> simp [hl]

/-- Witness for C4: the default female/airy config hits the exact preset, and
the same config with `persona = "duet"` resolves through the duet gender. -/
theorem choose_voice_preset_spec_witness :
    choose_voice_preset baseCfg = "female_soft_airy"
    ∧ choose_voice_preset cfgDuet = "duet_soft_airy" := by
  constructor
  · exact (choose_voice_preset_spec baseCfg).1 _ (by decide)
  · exact (choose_voice_preset_spec cfgDuet).1 _ (by decide)

/-- C5: `build_lyrics_prompt` joins the labeled segments `Theme:`,
`Subtheme:` (only when a non-empty subtheme is present), `Persona:` (only
when a non-empty persona is present), `Keywords:` (only when keywords is
non-empty, comma-joined), `Style:`, `Rhyme:`, `Language:` (comma-joined) with
the fixed separator `" | "` in exactly this order, and no assembled segment
is empty, so omitted fields leave no empty segment or stray separator. -/
theorem build_lyrics_prompt_spec (cfg : GenerateConfig) :
    build_lyrics_prompt cfg =
      String.intercalate " | "
        (["Theme: " ++ cfg.theme]
         ++ (match cfg.subtheme with
             | some s => if s ≠ "" then ["Subtheme: " ++ s] else []
             | none => [])
         ++ (match cfg.persona with
             | some p => if p ≠ "" then ["Persona: " ++ p] else []
             | none => [])
         ++ (if cfg.lyrics.keywords ≠ [] then
               ["Keywords: " ++ String.intercalate ", " cfg.lyrics.keywords]
             else [])
         ++ ["Style: " ++ cfg.lyrics.style]
         ++ ["Rhyme: " ++ cfg.lyrics.rhyme_scheme]
         ++ ["Language: " ++ String.intercalate ", " cfg.language])
    ∧ "" ∉ lyricsParts cfg := by
  constructor
  · rfl
  · intro hmem
    unfold lyricsParts at hmem
    simp only [List.mem_append, List.mem_singleton] at hmem
    rcases hmem with ((((((h | h) | h) | h) | h) | h) | h)
    · exact append_ne_empty_left _ (by decide) h.symm
    · rcases hs : cfg.subtheme with _ | s <;> simp only [hs] at h
      · simp at h
      · by_cases hne : s = ""
        · simp [hne] at h
        · rw [if_pos hne, List.mem_singleton] at h
          exact append_ne_empty_left _ (by decide) h.symm
    · rcases hq : cfg.persona with _ | q <;> simp only [hq] at h
      · simp at h
      · by_cases hne : q = ""
        · simp [hne] at h
        · rw [if_pos hne, List.mem_singleton] at h
          exact append_ne_empty_left _ (by decide) h.symm
    · by_cases hk : cfg.lyrics.keywords = []
      · simp [hk] at h
      · rw [if_pos hk, List.mem_singleton] at h
        exact append_ne_empty_left _ (by decide) h.symm
    · exact append_ne_empty_left _ (by decide) h.symm
    · exact append_ne_empty_left _ (by decide) h.symm
    · exact append_ne_empty_left _ (by decide) h.symm

/-- C6: on the free plan (whose `max_duration` is 90), a config whose other
fields violate no free-plan limit fails with the duration-limit error at
`duration_sec = 91` and passes the validator at `duration_sec = 90`. -/
theorem free_duration_boundary (cfg : GenerateConfig)
    (hstems : invalidStems cfg.structure_.stems (PLAN_LIMITS .free).allowed_stems = [])
    (hlufs : cfg.production.mastering.target_lufs = -14)
    (hwidth : cfg.production.mastering.stereo_width = 60)
    (hlim : cfg.production.mastering.limiter = "balanced")
    (hcrea : cfg.ai.creativity ≤ (PLAN_LIMITS .free).max_creativity) :
    (cfg.structure_.duration_sec = 91 →
      validate_plan_limits cfg .free = .error (.durationExceeded 91 90 .free))
    ∧ (cfg.structure_.duration_sec = 90 →
      validate_plan_limits cfg .free = .ok ()) := by
  constructor
  · intro hd
    have hgt : cfg.structure_.duration_sec > (PLAN_LIMITS .free).max_duration := by
      rw [hd]; decide
    have h := (validate_error_cases cfg .free).1 hgt
    rw [hd] at h
    simpa [PLAN_LIMITS] using h
  · intro hd
    rw [validate_ok_iff]
    exact ⟨by rw [hd]; decide, hstems, by simp [hlufs, hwidth, hlim], hcrea⟩

/-- Witness for C6: the scenario config at 91 seconds fails the free plan with
the duration error, and at 90 seconds it passes. -/
theorem free_duration_boundary_witness :
    validate_plan_limits cfg91 .free = .error (.durationExceeded 91 90 .free)
    ∧ validate_plan_limits cfg90 .free = .ok () := by
  constructor
  · exact (free_duration_boundary cfg91 (by decide) (by decide) (by decide)
      (by decide) (by decide)).1 (by decide)
  · exact (free_duration_boundary cfg90 (by decide) (by decide) (by decide)
      (by decide) (by decide)).2 (by decide)

/-- C7: a config requesting `stems = ["master", "vocals"]` that violates no
other limit fails on the free plan with the stems error carrying the
disallowed stems `["vocals"]` and the allowed set `["master"]`, and passes on
the pro plan (whose allowed stems include `"vocals"`). -/
theorem stems_free_fail_pro_pass (cfg : GenerateConfig)
    (hstems : cfg.structure_.stems = ["master", "vocals"])
    (hdur : cfg.structure_.duration_sec ≤ (PLAN_LIMITS .free).max_duration)
    (hlufs : cfg.production.mastering.target_lufs = -14)
    (hwidth : cfg.production.mastering.stereo_width = 60)
    (hlim : cfg.production.mastering.limiter = "balanced")
    (hcrea : cfg.ai.creativity ≤ (PLAN_LIMITS .free).max_creativity) :
    validate_plan_limits cfg .free =
      .error (.stemsNotAllowed ["vocals"] ["master"] .free)
    ∧ validate_plan_limits cfg .pro = .ok () := by
  constructor
  · have h1 : ¬ cfg.structure_.duration_sec > (PLAN_LIMITS .free).max_duration :=
      not_lt.mpr hdur
    have h2 : invalidStems cfg.structure_.stems (PLAN_LIMITS .free).allowed_stems ≠ [] := by
      rw [hstems]; decide
    have h := (validate_error_cases cfg .free).2.1 h1 h2
    rw [hstems] at h
    have he : invalidStems ["master", "vocals"] (PLAN_LIMITS .free).allowed_stems =
        ["vocals"] := by decide
    rw [he] at h
    simpa [PLAN_LIMITS] using h
  · rw [validate_ok_iff]
    refine ⟨le_trans hdur (by decide), ?_, by simp [hlufs, hwidth, hlim],
      le_trans hcrea (by decide)⟩
    rw [hstems]; decide

/-- Witness for C7: the scenario config at 90 seconds with
`stems = ["master", "vocals"]` fails free and passes pro. -/
theorem stems_free_fail_pro_pass_witness :
    validate_plan_limits cfgStems90 .free =
      .error (.stemsNotAllowed ["vocals"] ["master"] .free)
    ∧ validate_plan_limits cfgStems90 .pro = .ok () :=
  stems_free_fail_pro_pass cfgStems90 (by decide) (by decide) (by decide)
    (by decide) (by decide) (by decide)

/-- C8: the spec scenario config (theme `"love"`, genre `"pop"`, fusion
`["synthwave"]`, bpm 120, key `"C"`, scale `"major"`, 4/4, 150 seconds, stems
`["master"]`, defaults elsewhere) passes the validator on plan `pro`, and the
assembled payload has genre `"pop_synthwave"` and key signature `"C major"`. -/
theorem scenario_pro_payload :
    validate_plan_limits baseCfg .pro = .ok ()
    ∧ (map_to_music_api baseCfg).genre = "pop_synthwave"
    ∧ (map_to_music_api baseCfg).key_signature = "C major" :=
  ⟨by decide, by decide, rfl⟩

/-- C9: `map_to_music_api` and `validate_plan_limits` are pure functions of
the config (and plan): evaluating them twice on the same input gives the same
payload and the same verdict, and the optional `seed` field is passed through
unchanged into the payload. -/
theorem map_and_validate_deterministic (cfg : GenerateConfig) (plan : Plan) :
    map_to_music_api cfg = map_to_music_api cfg
    ∧ (map_to_music_api cfg).seed = cfg.ai.seed
    ∧ validate_plan_limits cfg plan = validate_plan_limits cfg plan :=
  ⟨rfl, rfl, rfl⟩

/-- C10: every config the validator accepts on the free plan is also accepted
on the pro, studio and label plans; the free limits are the strictest in each
checked dimension (minimal `max_duration`, allowed stems a subset of every
other plan's, minimal `max_creativity`). -/
theorem free_plan_strictest (cfg : GenerateConfig)
    (hfree : validate_plan_limits cfg .free = .ok ()) :
    validate_plan_limits cfg .pro = .ok ()
    ∧ validate_plan_limits cfg .studio = .ok ()
    ∧ validate_plan_limits cfg .label = .ok ()
    ∧ (∀ plan, (PLAN_LIMITS .free).max_duration ≤ (PLAN_LIMITS plan).max_duration
      ∧ (∀ s ∈ (PLAN_LIMITS .free).allowed_stems, s ∈ (PLAN_LIMITS plan).allowed_stems)
      ∧ (PLAN_LIMITS .free).max_creativity ≤ (PLAN_LIMITS plan).max_creativity) := by
  rw [validate_ok_iff] at hfree
  obtain ⟨hdur, hstems, hmast, hcrea⟩ := hfree
  have hnd : ¬(cfg.production.mastering.target_lufs ≠ -14 ∨
      cfg.production.mastering.stereo_width ≠ 60 ∨
      cfg.production.mastering.limiter ≠ "balanced") :=
    fun hd => hmast ⟨by decide, hd⟩
  push_neg at hnd
  obtain ⟨hlufs, hwidth, hlim⟩ := hnd
  rw [invalidStems_eq_nil_iff] at hstems
  have honly : ∀ s ∈ cfg.structure_.stems, s = "master" := by
    intro s hs
    have h := hstems s hs
    simpa [PLAN_LIMITS] using h
  refine ⟨?_, ?_, ?_, ?_⟩
  · rw [validate_ok_iff]
    refine ⟨le_trans hdur (by decide), ?_, by simp [hlufs, hwidth, hlim],
      le_trans hcrea (by decide)⟩
    rw [invalidStems_eq_nil_iff]
    intro s hs
    rw [honly s hs]; decide
  · rw [validate_ok_iff]
    refine ⟨le_trans hdur (by decide), ?_, by simp [PLAN_LIMITS],
      le_trans hcrea (by decide)⟩
    rw [invalidStems_eq_nil_iff]
    intro s hs
    rw [honly s hs]; decide
  · rw [validate_ok_iff]
    refine ⟨le_trans hdur (by decide), ?_, by simp [PLAN_LIMITS],
      le_trans hcrea (by decide)⟩
    rw [invalidStems_eq_nil_iff]
    intro s hs
    rw [honly s hs]; decide
  · intro plan
    rcases plan <;> exact ⟨by decide, by decide, by decide⟩

/-- Witness for C10: the scenario config at 90 seconds passes the free plan
and, by monotonicity, every higher plan. -/
theorem free_plan_strictest_witness :
    validate_plan_limits cfg90 .pro = .ok ()
    ∧ validate_plan_limits cfg90 .studio = .ok ()
    ∧ validate_plan_limits cfg90 .label = .ok () :=
  ⟨(free_plan_strictest cfg90 (by decide)).1,
   (free_plan_strictest cfg90 (by decide)).2.1,
   (free_plan_strictest cfg90 (by decide)).2.2.1⟩
